import Mathlib

set_option autoImplicit false

namespace FlaskRX

/-!
# Verification of the flask-restxpress database layer

A shallow embedding, in Lean 4, of the configuration-driven database
connection and query-execution layer of the `flask-restxpress` repository:
query classification (`core/db_olds.py`), query formatting
(`database/db_utils.py`), stored-procedure dispatch and the execution /
rollback discipline (`database/db.py`), URI construction for the
SQLAlchemy and ODBC connectors (`db/db.py`, `database/db.py`,
`core/factories/db/odbc.py`), configuration validation
(`models/db_model.py`, `core/config_manager/config_models.py`), default
database selection (`database/db.py`), result projection (`db/db.py`)
and the request-scoped session lifecycle (`database/db.py`).

Python strings are modelled as `List Char` where inductive reasoning is
needed and as `String` where only concatenation occurs; Python `dict`s
are modelled as association lists preserving insertion order; raised
exceptions are modelled with `Except`.
-/

/-! ## Python string primitives -/

/-- The whitespace characters stripped by Python's `str.strip()`
(ASCII fragment). -/
def isPySpace (c : Char) : Bool :=
  c == ' ' || c == '\t' || c == '\n' || c == '\r' ||
  c == Char.ofNat 11 || c == Char.ofNat 12

/-- Python `str.strip()`: drop leading and trailing whitespace. -/
def pyStrip (s : List Char) : List Char :=
  ((s.dropWhile isPySpace).reverse.dropWhile isPySpace).reverse

/-- Python `str.upper()` (ASCII fragment). -/
def pyUpper (s : List Char) : List Char :=
  s.map Char.toUpper

/-- Python `str.lower()` (ASCII fragment). -/
def pyLower (s : List Char) : List Char :=
  s.map Char.toLower

/-- Python `str.lower()` on packed strings. -/
def pyLowerS (s : String) : String :=
  String.mk (s.data.map Char.toLower)

/-- Python `str.upper()` on packed strings. -/
def pyUpperS (s : String) : String :=
  String.mk (s.data.map Char.toUpper)

/-! ## Write classification (`core/db_olds.py`)

`write_cmd = ('UPDATE', 'INSERT', 'DELETE')` and
`is_write_cmd(query)` returns
`query.strip().upper().startswith(write_cmd)`. -/

/-- The tuple `write_cmd` of `core/db_olds.py` line 18. -/
def write_cmd : List (List Char) :=
  [("UPDATE").data, ("INSERT").data, ("DELETE").data]

/-- Function `is_write_cmd` of `core/db_olds.py` lines 59-64:
strip, uppercase, then `startswith` on the `write_cmd` tuple. -/
def is_write_cmd (query : List Char) : Bool :=
  write_cmd.any (fun w => w.isPrefixOf (pyUpper (pyStrip query)))

/-- Spec-side notion of a case-insensitive prefix test, written
independently of the code's strip-then-uppercase pipeline: compare the
two strings character by character up to letter case. -/
def ciStartsWith : List Char → List Char → Bool
  | [], _ => true
  | _ :: _, [] => false
  | a :: p, b :: s => (a.toUpper == b.toUpper) && ciStartsWith p s

/-- Spec-side write classification: after trimming surrounding
whitespace the statement starts, case-insensitively, with `UPDATE`,
`INSERT` or `DELETE`. -/
def specIsWriteStatement (q : List Char) : Bool :=
  ciStartsWith ("UPDATE").data (pyStrip q) ||
  ciStartsWith ("INSERT").data (pyStrip q) ||
  ciStartsWith ("DELETE").data (pyStrip q)

/-! ## Association lists and Python string joining -/

/-- Python `dict.get(k)` / `dict[k]` on an insertion-ordered dict,
returning the value bound to the first matching key. -/
def lookupStr {α : Type} (k : String) : List (String × α) → Option α
  | [] => none
  | (k', v) :: rest => if k' == k then some v else lookupStr k rest

/-- Python `sep.join(parts)`: CPython accumulates the first element and
folds the separator in front of each following element. -/
def pyJoin (sep : String) (parts : List String) : String :=
  match parts with
  | [] => ""
  | x :: xs => xs.foldl (fun acc y => acc ++ sep ++ y) x

/-- Spec-side comma-separated rendering of `k1, k2, ...`, written as a
direct structural recursion. -/
def specJoin (sep : String) : List String → String
  | [] => ""
  | [x] => x
  | x :: xs => x ++ sep ++ specJoin sep xs

/-! ## Stored-procedure dispatch (`database/db.py` lines 165-203)

`call_stored_procedure` raises `ValueError` on `sqlite`, builds the
dialect-keyed `sql_templates` dict, and indexes it with the dialect
(a `KeyError` for any other dialect, since the membership test is
written after the indexing).  The generated SQL is what gets passed to
`text(...)` and executed; the embedding returns it. -/

/-- Errors raised by `call_stored_procedure`. -/
inductive SpError where
  | unsupportedOperation (msg : String)
  | keyError (key : String)
  deriving DecidableEq

/-- Method `BaseDB.call_stored_procedure` of `database/db.py`: the parameter
dict is embedded as its ordered key list (only the keys appear in the
generated SQL). -/
def call_stored_procedure (dialect procedure_name : String)
    (params : List String) : Except SpError String :=
  if dialect == "sqlite" then
    .error (.unsupportedOperation "SQLite does not support stored procedures.")
  else
    let sql_templates : List (String × String) :=
      [("postgresql", "CALL " ++ procedure_name ++ "(" ++
          pyJoin ", " (params.map (fun k => ":" ++ k)) ++ ")"),
       ("mysql", "CALL " ++ procedure_name ++ "(" ++
          pyJoin ", " (params.map (fun k => ":" ++ k)) ++ ")"),
       ("mssql", "EXEC " ++ procedure_name ++ " " ++
          pyJoin ", " (params.map (fun k => "@" ++ k ++ "=:" ++ k))),
       ("oracle", "BEGIN " ++ procedure_name ++ "(" ++
          pyJoin ", " (params.map (fun k => ":" ++ k)) ++ "); END;")]
    match lookupStr dialect sql_templates with
    | some sql => .ok sql
    | none => .error (.keyError dialect)

/-! ## Query formatting (`database/db_utils.py` lines 4-17,
`core/db_olds.py` lines 22-35)

`format_query` lowercases the query, returns it unchanged when
`format_args` is `None`, and otherwise applies Python `str.format` with
positional (`format(*args)`), keyword (`format(**args)`) or single
(`format(args)`) arguments. -/

/-- The three shapes accepted by `format_query`'s `format_args`. -/
inductive FormatArgs where
  | list (l : List String)
  | dict (d : List (String × String))
  | other (v : String)
  deriving DecidableEq

/-- One pass of Python `str.format` over the template, with a positional
argument list and a keyword mapping.  `fuel` dominates the template
length, so the `fuel` branch is unreachable on the initial call. -/
def pyFormatAux : Nat → List Char → List String → List (String × String) →
    Except String (List Char)
  | 0, _, _, _ => .error "out of fuel"
  | _ + 1, [], _, _ => .ok []
  | fuel + 1, '{' :: rest, pos, named =>
    let nm := rest.takeWhile (fun c => c != '}')
    match rest.dropWhile (fun c => c != '}') with
    | '}' :: rest2 =>
      if nm.isEmpty then
        match pos with
        | v :: pos2 => (pyFormatAux fuel rest2 pos2 named).map (fun r => v.data ++ r)
        | [] => .error "IndexError: replacement index out of range"
      else
        match lookupStr (String.mk nm) named with
        | some v => (pyFormatAux fuel rest2 pos named).map (fun r => v.data ++ r)
        | none => .error ("KeyError: " ++ String.mk nm)
    | _ => .error "ValueError: single brace in format string"
  | fuel + 1, c :: rest, pos, named =>
    (pyFormatAux fuel rest pos named).map (fun r => c :: r)

/-- Python `template.format(...)` for the three argument shapes used by
`format_query`. -/
def pyFormat (template : String) (args : FormatArgs) : Except String String :=
  let run := fun (pos : List String) (named : List (String × String)) =>
    (pyFormatAux (template.data.length + 1) template.data pos named).map String.mk
  match args with
  | .list l => run l []
  | .dict d => run [] d
  | .other v => run [v] []

/-- Function `format_query` of `database/db_utils.py`: lowercase the whole query
first, then substitute the arguments (if any). -/
def format_query (query : String) (format_args : Option FormatArgs) :
    Except String String :=
  let query := pyLowerS query
  match format_args with
  | none => .ok query
  | some args => pyFormat query args

/-! ## Request-scoped session lifecycle (`database/db.py` lines 464-484)

`get_session` memoizes the connection object in flask's per-request
context `g` (`if 'db' not in g: g.db = db_class(...); g.db.connect()`),
and the registered `teardown_appcontext` handler `teardown_db` pops
`g.db` and closes it when the request context ends — flask runs the
handler on every exit path, normal or raising.  Sessions are identified
by the order of their creation; `g` is modelled as an `Option`, the
fresh-session supply as a counter, and the close calls as a log. -/

/-- The state visible to `get_session`/`teardown_db`: the per-scope
flask context slot `g.db`, the supply of fresh session identities, and
the log of `close` calls (most recent first). -/
structure GState where
  db : Option Nat
  nextId : Nat
  closes : List Nat
  deriving DecidableEq

/-- Function `get_session` of `database/db.py`: return `g.db` if the scope
already holds a session, otherwise construct and connect a fresh one
and store it in `g.db`. -/
def get_session (s : GState) : Nat × GState :=
  match s.db with
  | some sid => (sid, s)
  | none => (s.nextId, { s with db := some s.nextId, nextId := s.nextId + 1 })

/-- Handler `teardown_db` of `database/db.py`: pop `g.db`; when a session was
present, close it. -/
def teardown_db (s : GState) : GState :=
  match s.db with
  | some sid => { s with db := none, closes := sid :: s.closes }
  | none => s

/-- Entering a new scope: flask gives the request a fresh, empty `g`. -/
def newScope (s : GState) : GState :=
  { s with db := none }

/-- Runs `n` session requests inside one scope. -/
def runRequests : Nat → GState → GState
  | 0, s => s
  | n + 1, s => runRequests n (get_session s).2

/-- One whole scope: a fresh context, `requests` session lookups, then
the teardown handler, which flask invokes whether or not the scope
raised (`raised` cannot influence it). -/
def runScope (requests : Nat) (_raised : Bool) (s : GState) : GState :=
  teardown_db (runRequests requests (newScope s))

/-! ## Query execution and rollback (`database/db.py` lines 206-244)

`BaseDB._execute` pages the statement (`_page` returns `_sort(sql)` for
stored-procedure text and `_sort` returns its argument unchanged), runs
it, commits on success; on any exception it calls `self.rollback()`,
prints the details and re-raises the caught exception itself — there is
no `ExecutionError` class anywhere in the repository and no payload of
statement text or parameter names is built. -/

/-- Function `is_stored_procedure` of `database/db_utils.py`: strip and lowercase
the query, then test the anchored keyword-plus-whitespace patterns. -/
def is_stored_procedure (query : String) : Bool :=
  let q := pyLower (pyStrip query.data)
  [("exec").data, ("execute").data, ("call").data, ("begin").data, ("declare").data].any
    (fun kw => kw.isPrefixOf q &&
      (match q.drop kw.length with
       | c :: _ => isPySpace c
       | [] => false))

/-- Method `BaseDB._sort` of `database/db.py`: returns the statement unchanged. -/
def BaseDB_sort (sql : String) : String := sql

/-- Method `BaseDB._page` of `database/db.py`: `_sort(sql)` for stored-procedure
text, otherwise the statement itself. -/
def BaseDB_page (sql : String) : String :=
  if is_stored_procedure sql then BaseDB_sort sql else sql

/-- What `_execute` can raise: the driver's own exception, re-raised
unchanged, or the `ExecutionError`-with-statement-and-parameter-names
shape that the spec describes. -/
inductive DbError where
  | driver (e : String)
  | execution (sql : String) (paramNames : List String)
  deriving DecidableEq

/-- Transaction calls `_execute` makes on the connection. -/
inductive DbAction where
  | commit
  | rollback
  deriving DecidableEq

/-- Method `BaseDB._execute` of `database/db.py`: page the statement, execute it
through the driver, commit on success; on a driver exception, roll back
and re-raise the caught exception.  The returned action list records the
transaction calls made. -/
def BaseDB_execute {ρ : Type}
    (driver : String → List (String × String) → Except String ρ)
    (sql : String) (params : List (String × String)) :
    Except DbError ρ × List DbAction :=
  let query := BaseDB_page sql
  match driver query params with
  | .ok result => (.ok result, [.commit])
  | .error e => (.error (.driver e), [.rollback])

/-- A driver that always fails, for exercising the error path. -/
def failingDriver : String → List (String × String) → Except String Unit :=
  fun _ _ => .error "duplicate key value violates unique constraint"

/-! ## SQLAlchemy URI construction (`db/db.py` lines 233-237,
`database/db.py` lines 324-333)

`SqAlchemyConn.uri` returns the configured literal URI when one is set
and otherwise applies
`"{driver}://{username}:{password}@{host}:{port}/{database}".format(**conn)`
— the template is applied whole, so a missing `password` or `port` key
is a `KeyError`, not an omitted segment.  (In `database/db.py` the
fallback branch is additionally unreachable because `uri_base_string` is
a property declared without `self`; the working copy in `db/db.py` is
embedded.) -/

/-- The `uri_base_string` template. -/
def uri_base_string : String :=
  "{driver}://{username}:{password}@{host}:{port}/{database}"

/-- Property `SqAlchemyConn.uri` of `db/db.py`: the literal URI when truthy,
otherwise `uri_base_string.format(**conn)`. -/
def sqlalchemy_uri (database_uri : Option String)
    (conn : List (String × String)) : Except String String :=
  match database_uri with
  | some u => if u != "" then .ok u else pyFormat uri_base_string (.dict conn)
  | none => pyFormat uri_base_string (.dict conn)

/-! ## ODBC connection strings (`database/db.py` lines 398-416,
`core/factories/db/odbc.py` lines 1-36)

`OdbcConn.uri` starts from `[f"DRIVER={{{driver}}}"]` and then loops
over the connection parameters — but the `append` sits inside the
`isinstance(value, bool)` branch, so only boolean-valued parameters are
ever appended, and the method returns the Python list itself, never a
joined string.  The standalone `create_odbc_connection` builds the
intended single string with every option and `yes`/`no` booleans. -/

/-- A Python scalar as it appears in the connection-parameter dicts. -/
inductive PVal where
  | s (v : String)
  | b (v : Bool)
  | i (v : Int)
  deriving DecidableEq

/-- Python `str(value)` inside an f-string. -/
def pyStr : PVal → String
  | .s v => v
  | .b v => if v then "True" else "False"
  | .i v => toString v

/-- Python `str(value)` after the boolean rewrite of `create_odbc_connection`:
booleans render as `yes`/`no`. -/
def odbcValRender : PVal → String
  | .b v => if v then "yes" else "no"
  | .s v => v
  | .i v => toString v

/-- What `OdbcConn.uri` can return: the literal URI, or the
`connection_str` Python list that the fallback branch returns without
joining. -/
inductive OdbcUri where
  | literal (s : String)
  | parts (l : List String)
  deriving DecidableEq

/-- The fallback branch of `OdbcConn.uri` of `database/db.py`: the
`DRIVER={...}` head, then — because the `append` is nested inside the
`isinstance(value, bool)` branch — one `KEY=yes/no` segment per boolean
parameter only, returned as a list. -/
def odbcConn_uri_build (params : List (String × PVal)) : OdbcUri :=
  let driver := match lookupStr "driver" params with
    | some v => pyStr v
    | none => "None"
  .parts (("DRIVER=\x7b" ++ driver ++ "\x7d") ::
    params.filterMap (fun kv =>
      match kv.2 with
      | .b b => some (pyUpperS kv.1 ++ "=" ++ (if b then "yes" else "no"))
      | _ => none))

/-- Property `OdbcConn.uri` of `database/db.py`: the literal URI when truthy,
otherwise the built parts list. -/
def odbcConn_uri (u : Option String) (params : List (String × PVal)) : OdbcUri :=
  match u with
  | some s => if s != "" then .literal s else odbcConn_uri_build params
  | none => odbcConn_uri_build params

/-- Function `create_odbc_connection` of `core/factories/db/odbc.py`: requires a
truthy driver, renders one `KEY=VALUE` segment per option with booleans
as `yes`/`no`, and joins everything with `;` into one string. -/
def create_odbc_connection (driver : Option String)
    (options : List (String × PVal)) : Except String String :=
  match driver with
  | none => .error "Driver is required for ODBC connection"
  | some d =>
    if d == "" then .error "Driver is required for ODBC connection"
    else .ok (pyJoin ";" (("DRIVER=\x7b" ++ d ++ "\x7d") ::
      options.map (fun kv => pyUpperS kv.1 ++ "=" ++ odbcValRender kv.2)))

/-! ## Result projection (`db/db.py` lines 174-184,
`core/factories/db/db.py` lines 173-182)

`_process` turns the raw rows into `[dict(row) for row in data]` and
returns `results[0]` when there is exactly one row and `output ==
'dict'`, otherwise the list itself. -/

/-- One projected row: a mapping from column name to value. -/
abbrev Row := List (String × PVal)

/-- The two shapes `_process` can return. -/
inductive ProjectedResult where
  | one (r : Row)
  | many (rs : List Row)
  deriving DecidableEq

/-- Method `BaseDB._process` of `db/db.py`: `results[0]` when there is exactly
one row and the configured output is `dict`, else the row list. -/
def BaseDB_process (output : String) (data : List Row) : ProjectedResult :=
  match data, output == "dict" with
  | [r], true => .one r
  | l, _ => .many l

/-! ## Database-config validation (`models/db_model.py` lines 92-119)

`DatabaseModel.field_validation` (a `mode='before'` validator) resolves
the driver from the top level or from `params`, requires `path` for
sqlite, requires at least one of `uri`/`params` otherwise (warning when
both are given, with `uri` winning at connection time), and requires a
driver whenever `use_odbc` is truthy. -/

/-- The raw configuration keys `field_validation` reads.  `none` models
an absent key; Python truthiness additionally treats `""`, an empty
dict and `False` as absent. -/
structure RawDbConfig where
  dialect : Option String
  uri : Option String
  params : Option (List (String × String))
  use_odbc : Bool
  driver : Option String
  path : Option String
  deriving DecidableEq

/-- Python truthiness of an optional string. -/
def truthyStr : Option String → Bool
  | none => false
  | some s => s != ""

/-- Python truthiness of an optional dict. -/
def truthyParams : Option (List (String × String)) → Bool
  | none => false
  | some l => !l.isEmpty

def msg_uri_or_params : String :=
  "Either `uri` or `params` must be provided for non-sqlite dialects."

def msg_uri_and_params : String :=
  "Both `uri` and `params` are provided. Uri will be used"

def msg_sqlite_path : String :=
  "`path` is required when `dialect` is `sqlite`."

def msg_missing_driver : String :=
  "Driver is required when using ODBC connections."

/-- The driver-resolution prelude of `field_validation`: the top-level
`driver` when truthy, else `params.get('driver')` when `params` is
truthy. -/
def resolved_driver (v : RawDbConfig) : Option String :=
  if truthyStr v.driver then v.driver
  else match v.params with
    | some ps => if ps.isEmpty then none else lookupStr "driver" ps
    | none => none

/-- Validator `DatabaseModel.field_validation` of `models/db_model.py`: the
checked rules in source order; `.ok` carries the recorded non-fatal
warnings. -/
def field_validation (v : RawDbConfig) : Except String (List String) :=
  let driver := resolved_driver v
  if v.dialect == some "sqlite" then
    if !truthyStr v.path then .error msg_sqlite_path
    else if v.use_odbc && !truthyStr driver then .error msg_missing_driver
    else .ok []
  else
    if !(truthyStr v.uri || truthyParams v.params) then .error msg_uri_or_params
    else
      let warns := if truthyStr v.uri && truthyParams v.params then
        [msg_uri_and_params] else []
      if v.use_odbc && !truthyStr driver then .error msg_missing_driver
      else .ok warns

/-! ## Default-database selection
(`core/config_manager/config_models.py` lines 25-30,
`database/db.py` lines 44-65, `models/db_model.py` lines 121-134)

`AppConfig.check_one_default_database` rejects more than one
`default=true` entry.  `get_default_db` is meant to pick the default
entry name, but its `for db_name, config in config.items()` loop shadows
the `config` parameter, so the trailing `next(iter(config.items()))`
returns the first key-value pair of the *last entry's* value dict, and
the `missing_default_db` warning text declared in `config_models.py` is
never emitted anywhere.  (`MultiDatabaseModel` is `pass` and checks
nothing; `set_defaults` even calls `get_default_db(config)` with one
argument against a two-parameter signature.) -/

/-- One entry of `AppConfig.databases`. -/
structure DbEntry where
  name : String
  default : Bool
  deriving DecidableEq

/-- Validator `AppConfig.check_one_default_database` of
`core/config_manager/config_models.py`. -/
def check_one_default_database (databases : List DbEntry) :
    Except String (List DbEntry) :=
  if 1 < (databases.filter (fun d => d.default)).length then
    .error "There must be at most one default database."
  else .ok databases

/-- Function `get_default_db` of `database/db.py`, embedded with its
loop-variable shadowing: the fold records the last entry whose value
dict has `default == True`, and the returned pair is
`next(iter(config.items()))` where `config` is the loop variable — the
last entry's value dict (a `StopIteration` on an empty dict). -/
def get_default_db (config : List (String × List (String × PVal))) :
    Option String × Except String (String × PVal) :=
  let default_db_name := config.foldl
    (fun acc entry =>
      if lookupStr "default" entry.2 == some (PVal.b true) then some entry.1 else acc)
    none
  match config.getLast? with
  | none => (default_db_name, .error "StopIteration")
  | some entry =>
    (default_db_name,
      match entry.2 with
      | kv :: _ => .ok kv
      | [] => .error "StopIteration")

/-! ## Theorems -/

theorem ciStartsWith_eq_isPrefixOf_map (p s : List Char) :
    ciStartsWith p s = (p.map Char.toUpper).isPrefixOf (s.map Char.toUpper) := by
  induction p generalizing s with
  | nil => cases s <;> rfl
  | cons a p ih =>
    cases s with
    | nil => rfl
    | cons b s => simp [ciStartsWith, List.isPrefixOf, ih]

theorem map_toUpper_UPDATE :
    List.map Char.toUpper ['U', 'P', 'D', 'A', 'T', 'E'] = ['U', 'P', 'D', 'A', 'T', 'E'] := by
  decide

theorem map_toUpper_INSERT :
    List.map Char.toUpper ['I', 'N', 'S', 'E', 'R', 'T'] = ['I', 'N', 'S', 'E', 'R', 'T'] := by
  decide

theorem map_toUpper_DELETE :
    List.map Char.toUpper ['D', 'E', 'L', 'E', 'T', 'E'] = ['D', 'E', 'L', 'E', 'T', 'E'] := by
  decide

/-- C4: the executor classifies a statement as a write exactly when, after
trimming surrounding whitespace, it starts case-insensitively with
`UPDATE`, `INSERT` or `DELETE`; in particular `"insert into t values(1)"`
and `"  INSERT INTO t..."` are writes while `"select 1"` is a read. -/
theorem claim_C4_write_classification :
    (∀ q : List Char, is_write_cmd q = specIsWriteStatement q) ∧
    is_write_cmd ("insert into t values(1)").data = true ∧
    is_write_cmd ("  INSERT INTO t...").data = true ∧
    is_write_cmd ("select 1").data = false := by
  refine ⟨?_, by decide, by decide, by decide⟩
  intro q
  simp only [is_write_cmd, write_cmd, List.any_cons, List.any_nil, Bool.or_false,
    specIsWriteStatement, ciStartsWith_eq_isPrefixOf_map, pyUpper,
    map_toUpper_UPDATE, map_toUpper_INSERT, map_toUpper_DELETE]
  simp [Bool.or_assoc]

theorem string_append_empty (a : String) : a ++ "" = a := by
  apply String.ext
  simp [String.data_append]

theorem specJoin_cons (sep : String) (x y : String) (ys : List String) :
    specJoin sep (x :: y :: ys) = x ++ sep ++ specJoin sep (y :: ys) := rfl

theorem pyJoin_foldl (sep : String) :
    ∀ (xs : List String) (acc : String),
      xs.foldl (fun a y => a ++ sep ++ y) acc = acc ++ specJoin sep ("" :: xs) := by
  intro xs
  induction xs with
  | nil => intro acc; simp [specJoin, string_append_empty]
  | cons y ys ih =>
    intro acc
    simp only [List.foldl_cons, ih]
    cases ys with
    | nil =>
      apply String.ext
      simp [specJoin, String.data_append]
    | cons z zs =>
      apply String.ext
      simp [specJoin, String.data_append]

theorem pyJoin_eq_specJoin (sep : String) (l : List String) :
    pyJoin sep l = specJoin sep l := by
  cases l with
  | nil => rfl
  | cons x xs =>
    cases xs with
    | nil => rfl
    | cons y ys =>
      show (y :: ys).foldl (fun a c => a ++ sep ++ c) x = _
      rw [pyJoin_foldl, specJoin_cons]
      apply String.ext
      simp [specJoin, String.data_append]

/-- C3: `callProcedure` generates exactly the dialect table of the spec
(mysql/postgresql `CALL name(:k1, ...)`, mssql `EXEC name @k1=:k1, ...`,
oracle `BEGIN name(:k1, ...); END;`), raises the unsupported-operation
error on sqlite without executing anything, and on mssql
`callProcedure("get_user", {"id": 5})` yields `"EXEC get_user @id=:id"`. -/
theorem claim_C3_procedure_call_syntax :
    (∀ (name : String) (params : List String),
      call_stored_procedure "mysql" name params =
        .ok ("CALL " ++ name ++ "(" ++ specJoin ", " (params.map (fun k => ":" ++ k)) ++ ")") ∧
      call_stored_procedure "postgresql" name params =
        .ok ("CALL " ++ name ++ "(" ++ specJoin ", " (params.map (fun k => ":" ++ k)) ++ ")") ∧
      call_stored_procedure "mssql" name params =
        .ok ("EXEC " ++ name ++ " " ++ specJoin ", " (params.map (fun k => "@" ++ k ++ "=:" ++ k))) ∧
      call_stored_procedure "oracle" name params =
        .ok ("BEGIN " ++ name ++ "(" ++ specJoin ", " (params.map (fun k => ":" ++ k)) ++ "); END;") ∧
      call_stored_procedure "sqlite" name params =
        .error (.unsupportedOperation "SQLite does not support stored procedures.")) ∧
    call_stored_procedure "mssql" "get_user" ["id"] = .ok "EXEC get_user @id=:id" := by
  refine ⟨fun name params => ?_, by rfl⟩
  refine ⟨?_, ?_, ?_, ?_, rfl⟩ <;>
    simp [call_stored_procedure, lookupStr, pyJoin_eq_specJoin]

/-- C10: `format_query` lowercases the whole statement before any
argument substitution — `format_query(q, None) = q.lower()` for every
`q`, and with arguments the substitution runs on the lowercased
template (so substituted values keep their case while the literal SQL
does not). -/
theorem claim_C10_format_query_lowercases :
    (∀ q : String, format_query q none = .ok (pyLowerS q)) ∧
    (∀ (q : String) (a : FormatArgs), format_query q (some a) = pyFormat (pyLowerS q) a) ∧
    format_query "SELECT Name FROM T WHERE id = :id" none =
      .ok "select name from t where id = :id" ∧
    format_query "SELECT {col} FROM T" (some (.dict [("col", "ID")])) =
      .ok "select ID from t" := by
  exact ⟨fun q => rfl, fun q a => rfl, by rfl, by rfl⟩

theorem get_session_of_some {s : GState} {sid : Nat} (h : s.db = some sid) :
    get_session s = (sid, s) := by
  simp [get_session, h]

theorem runRequests_of_some {s : GState} {sid : Nat} (h : s.db = some sid) :
    ∀ n, runRequests n s = s := by
  intro n
  induction n with
  | zero => rfl
  | succ n ih => simp [runRequests, get_session_of_some h, ih]

theorem runRequests_newScope (s : GState) (n : Nat) :
    runRequests (n + 1) (newScope s) =
      { s with db := some s.nextId, nextId := s.nextId + 1 } := by
  show runRequests n (get_session (newScope s)).2 = _
  have h1 : (get_session (newScope s)).2 =
      { s with db := some s.nextId, nextId := s.nextId + 1 } := by
    simp [get_session, newScope]
  rw [h1, runRequests_of_some rfl]

/-- C1: within a scope the first session request creates a session and
every later request returns the same one; a scope entered after a scope
that used a session gets a different session; the scope's teardown
closes the scope's session exactly once; and the scope's effect is
independent of whether the scope raised. -/
theorem claim_C1_session_scope_lifecycle :
    (∀ s : GState, (newScope s).db = none ∧
      (get_session (newScope s)).2.db = some s.nextId) ∧
    (∀ (s : GState) (n : Nat),
      (get_session (runRequests n (newScope s))).1 = (get_session (newScope s)).1) ∧
    (∀ (s : GState) (n : Nat) (raised : Bool),
      (get_session (newScope (runScope (n + 1) raised s))).1 ≠
        (get_session (newScope s)).1) ∧
    (∀ (s : GState) (n : Nat) (raised : Bool),
      (runScope (n + 1) raised s).closes = s.nextId :: s.closes ∧
      (runScope (n + 1) raised s).closes.count s.nextId =
        s.closes.count s.nextId + 1) ∧
    (∀ (s : GState) (n : Nat), runScope n true s = runScope n false s) := by
  refine ⟨fun s => ⟨rfl, rfl⟩, fun s n => ?_, fun s n raised => ?_, fun s n raised => ?_,
    fun s n => rfl⟩
  · cases n with
    | zero => rfl
    | succ m =>
      rw [runRequests_newScope]
      simp [get_session, newScope]
  · rw [runScope, runRequests_newScope]
    simp [teardown_db, get_session, newScope]
  · rw [runScope, runRequests_newScope]
    constructor
    · simp [teardown_db]
    · simp [teardown_db, List.count_cons]

theorem BaseDB_page_eq (sql : String) : BaseDB_page sql = sql := by
  simp [BaseDB_page, BaseDB_sort]

/-- C2 counterexample: on a driver failure `_execute` re-raises the
driver's own exception after rolling back; the error is not an
`ExecutionError` carrying the SQL text and the parameter names. -/
theorem claim_C2_counterexample :
    BaseDB_execute failingDriver "INSERT INTO t VALUES (:id)" [("id", "5")] =
      (.error (.driver "duplicate key value violates unique constraint"), [.rollback]) ∧
    (BaseDB_execute failingDriver "INSERT INTO t VALUES (:id)" [("id", "5")]).1 ≠
      .error (.execution "INSERT INTO t VALUES (:id)" ["id"]) := by
  refine ⟨rfl, fun h => ?_⟩
  exact absurd (Except.error.inj h) (by decide)

/-- C2 (amended): when the driver raises during execution, `_execute`
first rolls back the current transaction and then re-raises the original
driver exception unchanged — no `ExecutionError` wrapper and no
statement-text/parameter-name payload is constructed. -/
theorem claim_C2_rollback_and_reraise {ρ : Type}
    (driver : String → List (String × String) → Except String ρ)
    (sql : String) (params : List (String × String)) (e : String)
    (h : driver sql params = .error e) :
    BaseDB_execute driver sql params = (.error (.driver e), [.rollback]) := by
  simp [BaseDB_execute, BaseDB_page_eq, h]

/-- Witness for the amended C2 theorem at a concrete failing driver. -/
theorem claim_C2_rollback_and_reraise_witness :
    BaseDB_execute failingDriver "INSERT INTO t VALUES (:id)" [("id", "5")] =
      (.error (.driver "duplicate key value violates unique constraint"), [.rollback]) :=
  claim_C2_rollback_and_reraise failingDriver "INSERT INTO t VALUES (:id)"
    [("id", "5")] "duplicate key value violates unique constraint" rfl

/-- C5 counterexample: with `password` absent from `connectionParams`
the composed URI is not the cleanly-omitted
`"mysql+pymysql://u@h:3306/d"`; the `.format` call raises `KeyError`. -/
theorem claim_C5_counterexample :
    sqlalchemy_uri none
      [("driver", "mysql+pymysql"), ("username", "u"), ("host", "h"),
       ("port", "3306"), ("database", "d")] =
      .error "KeyError: password" ∧
    sqlalchemy_uri none
      [("driver", "mysql+pymysql"), ("username", "u"), ("host", "h"),
       ("port", "3306"), ("database", "d")] ≠
      .ok "mysql+pymysql://u@h:3306/d" := by
  refine ⟨rfl, fun h => ?_⟩
  rw [show sqlalchemy_uri none
      [("driver", "mysql+pymysql"), ("username", "u"), ("host", "h"),
       ("port", "3306"), ("database", "d")] =
      Except.error "KeyError: password" from rfl] at h
  exact Except.noConfusion h

/-- C5 (amended): `buildURI` returns the configured `uri` verbatim when
set; otherwise it always formats the full
`{driver}://{username}:{password}@{host}:{port}/{database}` template
from `connectionParams`, and when `password` (or any other key) is
absent the construction raises `KeyError` instead of omitting the
segment. -/
theorem claim_C5_uri_verbatim_or_full_template :
    (∀ (u : String) (conn : List (String × String)), u ≠ "" →
      sqlalchemy_uri (some u) conn = .ok u) ∧
    (∀ d un pw h po db : String,
      sqlalchemy_uri none
        [("driver", d), ("username", un), ("password", pw), ("host", h),
         ("port", po), ("database", db)] =
        .ok (d ++ "://" ++ un ++ ":" ++ pw ++ "@" ++ h ++ ":" ++ po ++ "/" ++ db)) ∧
    (∀ (conn : List (String × String)) (d0 u0 : String),
      lookupStr "driver" conn = some d0 → lookupStr "username" conn = some u0 →
      lookupStr "password" conn = none →
      sqlalchemy_uri none conn = .error "KeyError: password") := by
  refine ⟨fun u conn hu => ?_, fun d un pw h po db => ?_, fun conn d0 u0 h1 h2 h3 => ?_⟩
  · simp [sqlalchemy_uri, hu]
  · simp [sqlalchemy_uri, uri_base_string, pyFormat, pyFormatAux, lookupStr,
      Except.map, String.ext_iff, String.data_append]
  · simp [sqlalchemy_uri, uri_base_string, pyFormat, pyFormatAux, lookupStr,
      Except.map, h1, h2, h3]

/-- Witness for the amended C5 theorem. -/
theorem claim_C5_uri_witness :
    sqlalchemy_uri (some "postgresql://x") [] = .ok "postgresql://x" ∧
    sqlalchemy_uri none
      [("driver", "mysql+pymysql"), ("username", "u"), ("password", "p"),
       ("host", "h"), ("port", "3306"), ("database", "d")] =
      .ok ("mysql+pymysql" ++ "://" ++ "u" ++ ":" ++ "p" ++ "@" ++ "h" ++ ":" ++
        "3306" ++ "/" ++ "d") ∧
    sqlalchemy_uri none [("driver", "mysql+pymysql"), ("username", "u")] =
      .error "KeyError: password" :=
  ⟨claim_C5_uri_verbatim_or_full_template.1 "postgresql://x" [] (by decide),
   claim_C5_uri_verbatim_or_full_template.2.1 "mysql+pymysql" "u" "p" "h" "3306" "d",
   claim_C5_uri_verbatim_or_full_template.2.2
     [("driver", "mysql+pymysql"), ("username", "u")] "mysql+pymysql" "u" rfl rfl rfl⟩

/-- C6: at the failing input (`driver` plus a string-valued and a
boolean-valued parameter) the `OdbcConn.uri` fallback loses the
non-boolean `server` parameter and returns an unjoined list, while the
repository's own `create_odbc_connection` shows the intended single
string containing every provided parameter. -/
theorem claim_C6_odbc_connection_string :
    odbcConn_uri none
      [("driver", .s "MySQL ODBC"), ("server", .s "localhost"),
       ("trusted_connection", .b false)] =
      .parts ["DRIVER=\x7bMySQL ODBC\x7d", "TRUSTED_CONNECTION=no"] ∧
    create_odbc_connection (some "MySQL ODBC")
      [("server", .s "localhost"), ("trusted_connection", .b false)] =
      .ok "DRIVER=\x7bMySQL ODBC\x7d;SERVER=localhost;TRUSTED_CONNECTION=no" := by
  exact ⟨rfl, rfl⟩

/-- C9: with `output=dict` and exactly one row the projection is the
single mapping itself (not a one-element sequence); with zero rows it is
the empty sequence whatever the output setting; with more than one row
it is the sequence of mappings. -/
theorem claim_C9_result_projection :
    (∀ r : Row, BaseDB_process "dict" [r] = .one r) ∧
    (∀ r : Row, BaseDB_process "dict" [r] ≠ .many [r]) ∧
    (∀ output : String, BaseDB_process output [] = .many []) ∧
    (∀ (output : String) (data : List Row), 1 < data.length →
      BaseDB_process output data = .many data) := by
  refine ⟨fun r => rfl, fun r h => ProjectedResult.noConfusion h,
    fun output => rfl, fun output data h => ?_⟩
  match data, h with
  | x :: y :: rest, _ =>
    cases hb : output == "dict" <;> rfl

/-- Witness for the hypothesis-bearing projection theorem. -/
theorem claim_C9_result_projection_witness :
    BaseDB_process "dict" [[("id", PVal.i 1)], [("id", PVal.i 2)]] =
      .many [[("id", PVal.i 1)], [("id", PVal.i 2)]] :=
  claim_C9_result_projection.2.2.2 "dict"
    [[("id", PVal.i 1)], [("id", PVal.i 2)]] (by decide)

/-- C7 counterexample: a non-sqlite config with exactly one of
`uri`/`connectionParams` present (here `uri`) is still rejected when
`use_odbc` is set without a resolvable driver, so "exactly one of the
two is present implies success" fails as stated. -/
theorem claim_C7_counterexample :
    field_validation
      ⟨some "mysql", some "mysql://u:p@h/d", none, true, none, none⟩ =
      .error msg_missing_driver ∧
    field_validation
      ⟨some "mysql", some "mysql://u:p@h/d", none, true, none, none⟩ ≠ .ok [] := by
  refine ⟨rfl, fun h => ?_⟩
  rw [show field_validation
      ⟨some "mysql", some "mysql://u:p@h/d", none, true, none, none⟩ =
      Except.error msg_missing_driver from rfl] at h
  exact Except.noConfusion h

/-- C7 (amended): for a non-sqlite raw config, validation fails with the
`uri`-or-`params` ConfigError when neither is present; provided the ODBC
rule is also satisfied (a driver is resolvable whenever `use_odbc` is
set), it succeeds with no warning when exactly one of the two is
present, and succeeds while recording the non-fatal both-given warning
when both are present; `uri` takes precedence over `connectionParams`
when the connection string is built. -/
theorem claim_C7_uri_params_validation (v : RawDbConfig)
    (hd : v.dialect ≠ some "sqlite") :
    (truthyStr v.uri = false → truthyParams v.params = false →
      field_validation v = .error msg_uri_or_params) ∧
    ((v.use_odbc = true → truthyStr (resolved_driver v) = true) →
      (truthyStr v.uri = true → truthyParams v.params = false →
        field_validation v = .ok []) ∧
      (truthyStr v.uri = false → truthyParams v.params = true →
        field_validation v = .ok []) ∧
      (truthyStr v.uri = true → truthyParams v.params = true →
        field_validation v = .ok [msg_uri_and_params])) ∧
    (∀ (u : String) (conn : List (String × String)), u ≠ "" →
      sqlalchemy_uri (some u) conn = .ok u) := by
  have hd' : (v.dialect == some "sqlite") = false := by
    simpa using hd
  refine ⟨fun h1 h2 => ?_, fun hodbc => ⟨fun h1 h2 => ?_, fun h1 h2 => ?_, fun h1 h2 => ?_⟩,
    fun u conn hu => by simp [sqlalchemy_uri, hu]⟩ <;>
    cases ho : v.use_odbc <;>
      simp_all [field_validation, hd']

/-- Witness for the amended C7 theorem, covering all four scenarios. -/
theorem claim_C7_uri_params_validation_witness :
    field_validation ⟨some "mysql", none, none, false, none, none⟩ =
      .error msg_uri_or_params ∧
    field_validation ⟨some "mysql", some "mysql://u:p@h/d", none, false, none, none⟩ =
      .ok [] ∧
    field_validation ⟨some "mysql", none, some [("host", "h")], false, none, none⟩ =
      .ok [] ∧
    field_validation
      ⟨some "mysql", some "mysql://u:p@h/d", some [("host", "h")], false, none, none⟩ =
      .ok [msg_uri_and_params] ∧
    sqlalchemy_uri (some "mysql://u:p@h/d") [("host", "h")] = .ok "mysql://u:p@h/d" :=
  ⟨(claim_C7_uri_params_validation ⟨some "mysql", none, none, false, none, none⟩
      (by decide)).1 rfl rfl,
   ((claim_C7_uri_params_validation
      ⟨some "mysql", some "mysql://u:p@h/d", none, false, none, none⟩
      (by decide)).2.1 (by decide)).1 rfl rfl,
   ((claim_C7_uri_params_validation
      ⟨some "mysql", none, some [("host", "h")], false, none, none⟩
      (by decide)).2.1 (by decide)).2.1 rfl rfl,
   ((claim_C7_uri_params_validation
      ⟨some "mysql", some "mysql://u:p@h/d", some [("host", "h")], false, none, none⟩
      (by decide)).2.1 (by decide)).2.2 rfl rfl,
   (claim_C7_uri_params_validation
      ⟨some "mysql", some "mysql://u:p@h/d", some [("host", "h")], false, none, none⟩
      (by decide)).2.2 "mysql://u:p@h/d" [("host", "h")] (by decide)⟩

/-- C8: more than one `default=true` is rejected (the claim's first
part holds), but with zero defaults the code neither selects the first
declared entry nor records a warning: `get_default_db` returns the
first key-value pair of the last entry's own value dict, and with
exactly one default the same garbage value is returned alongside the
found name. -/
theorem claim_C8_default_database_selection :
    check_one_default_database [⟨"dbA", true⟩, ⟨"dbB", true⟩] =
      .error "There must be at most one default database." ∧
    check_one_default_database [⟨"dbA", false⟩, ⟨"dbB", false⟩] =
      .ok [⟨"dbA", false⟩, ⟨"dbB", false⟩] ∧
    get_default_db
      [("dbA", [("dialect", PVal.s "mysql")]), ("dbB", [("dialect", PVal.s "mssql")])] =
      (none, .ok ("dialect", PVal.s "mssql")) ∧
    get_default_db
      [("dbA", [("default", PVal.b true), ("dialect", PVal.s "mysql")]),
       ("dbB", [("dialect", PVal.s "mssql")])] =
      (some "dbA", .ok ("dialect", PVal.s "mssql")) := by
  exact ⟨rfl, rfl, rfl, rfl⟩

end FlaskRX
